import Mathlib

/-!
Verification of the rotor-test mock I/O harness.

The development shallowly embeds the two source modules:

* `stream.rs`: `MemIo`, a cloneable handle onto a shared buffer triple
  `{input, input_closed, output}` with `push_bytes`, `shutdown_input`,
  `output_str`, `output_bytes` and `io::Read` / `io::Write`
  implementations.  All handles share one `Bufs` value behind a mutex, so
  the embedding works directly on the `Bufs` state; each operation is a
  function from the state (plus arguments) to a result carrying the new
  state.  A Rust panic (failed `assert!` / `expect` / `unreachable!`)
  is modelled by a dedicated `panicked` constructor carrying the buffer
  state at the moment of the abort.
* `scope.rs`: the capture `Handler` implementing the `_LoopApi`
  scheduling facade by appending `Operation` values to a vector.

Bytes are modelled as `Nat` (the u8 range is irrelevant to the claims),
byte vectors as `List Nat` with `Vec::push`/`extend` as list append.
-/

/-- Error kinds of `std::io` that the embedded code can produce:
`WouldBlock` from `MemIo::read` on an empty open input, and `WriteZero`
produced by `write_all` inside `std::io::copy` when the destination
cursor runs out of space. -/
inductive IoErrorKind where
  | wouldBlock
  | writeZero
  deriving Repr, DecidableEq

/-- The shared buffer state behind `MemIo` (struct `Bufs` in
`stream.rs`): an input byte sequence, the input-closed flag, and an
output byte sequence. -/
structure Bufs where
  input : List Nat
  input_closed : Bool
  output : List Nat
  deriving Repr, DecidableEq

/-- `MemIo::new()`: empty input, `input_closed = false`, empty output. -/
def MemIo.new : Bufs := { input := [], input_closed := false, output := [] }

/-- Result of `MemIo::push_bytes`: either the updated state, or a panic
(failed `assert!(!bufs.input_closed)`) carrying the buffer state at the
moment of the abort. -/
inductive PushResult where
  | ok (s : Bufs)
  | panicked (s : Bufs)
  deriving Repr, DecidableEq

/-- `MemIo::push_bytes(val)`: first `bufs.input.extend(val)`, then
`assert!(!bufs.input_closed)`.  The extend happens before the check, so
the state carried by a panic already contains the appended bytes. -/
def MemIo.push_bytes (s : Bufs) (val : List Nat) : PushResult :=
  let s1 : Bufs := { s with input := s.input ++ val }
  if s1.input_closed then PushResult.panicked s1 else PushResult.ok s1

/-- `MemIo::shutdown_input()`: sets `input_closed` to `true`. -/
def MemIo.shutdown_input (s : Bufs) : Bufs :=
  { s with input_closed := true }

/-- The Unicode replacement character U+FFFD used by
`String::from_utf8_lossy`. -/
def replacementChar : Char := Char.ofNat 0xFFFD

/-- UTF-8 decoding with lossy replacement, as performed by Rust's
`String::from_utf8_lossy`: maximal valid prefixes are decoded and every
maximal subpart of an ill-formed subsequence is replaced by one U+FFFD
(WHATWG decoding algorithm).  Lead bytes `0xC0`, `0xC1` and `0xF5..`
are invalid; `0xE0`/`0xED`/`0xF0`/`0xF4` restrict their first
continuation byte to exclude overlong forms, surrogates and values
beyond U+10FFFF.  The `fuel` argument only serves structural
termination: every recursive call consumes at least one input byte, so
any fuel of at least the list's length gives the decoding. -/
def utf8LossyDecodeFuel : Nat → List Nat → List Char
  | 0, _ => []
  | _, [] => []
  | fuel + 1, b0 :: rest =>
    if b0 < 0x80 then
      Char.ofNat b0 :: utf8LossyDecodeFuel fuel rest
    else if b0 < 0xC2 then
      replacementChar :: utf8LossyDecodeFuel fuel rest
    else if b0 < 0xE0 then
      match rest with
      | [] => [replacementChar]
      | b1 :: rest1 =>
        if 0x80 ≤ b1 ∧ b1 < 0xC0 then
          Char.ofNat ((b0 - 0xC0) * 0x40 + (b1 - 0x80)) ::
            utf8LossyDecodeFuel fuel rest1
        else
          replacementChar :: utf8LossyDecodeFuel fuel (b1 :: rest1)
    else if b0 < 0xF0 then
      match rest with
      | [] => [replacementChar]
      | b1 :: rest1 =>
        if (if b0 = 0xE0 then 0xA0 else 0x80) ≤ b1 ∧
            b1 < (if b0 = 0xED then 0xA0 else 0xC0) then
          match rest1 with
          | [] => [replacementChar]
          | b2 :: rest2 =>
            if 0x80 ≤ b2 ∧ b2 < 0xC0 then
              Char.ofNat ((b0 - 0xE0) * 0x1000 + (b1 - 0x80) * 0x40 + (b2 - 0x80)) ::
                utf8LossyDecodeFuel fuel rest2
            else
              replacementChar :: utf8LossyDecodeFuel fuel (b2 :: rest2)
        else
          replacementChar :: utf8LossyDecodeFuel fuel (b1 :: rest1)
    else if b0 < 0xF5 then
      match rest with
      | [] => [replacementChar]
      | b1 :: rest1 =>
        if (if b0 = 0xF0 then 0x90 else 0x80) ≤ b1 ∧
            b1 < (if b0 = 0xF4 then 0x90 else 0xC0) then
          match rest1 with
          | [] => [replacementChar]
          | b2 :: rest2 =>
            if 0x80 ≤ b2 ∧ b2 < 0xC0 then
              match rest2 with
              | [] => [replacementChar]
              | b3 :: rest3 =>
                if 0x80 ≤ b3 ∧ b3 < 0xC0 then
                  Char.ofNat ((b0 - 0xF0) * 0x40000 + (b1 - 0x80) * 0x1000 +
                      (b2 - 0x80) * 0x40 + (b3 - 0x80)) ::
                    utf8LossyDecodeFuel fuel rest3
                else
                  replacementChar :: utf8LossyDecodeFuel fuel (b3 :: rest3)
            else
              replacementChar :: utf8LossyDecodeFuel fuel (b2 :: rest2)
        else
          replacementChar :: utf8LossyDecodeFuel fuel (b1 :: rest1)
      else
        replacementChar :: utf8LossyDecodeFuel fuel rest

/-- `String::from_utf8_lossy` on a byte sequence, as a list of decoded
characters. -/
def utf8LossyDecode (l : List Nat) : List Char :=
  utf8LossyDecodeFuel l.length l

/-- `MemIo::output_str()`: `String::from_utf8_lossy(&self.bufs().output)`,
a snapshot taking `&self`; the second component is the state after the
call, which the method does not modify. -/
def MemIo.output_str (s : Bufs) : String × Bufs :=
  (String.mk (utf8LossyDecode s.output), s)

/-- `MemIo::output_bytes()`: `self.bufs().output.clone()`, a snapshot
taking `&self`; the second component is the state after the call, which
the method does not modify. -/
def MemIo.output_bytes (s : Bufs) : List Nat × Bufs :=
  (s.output, s)

/-- `std::io::copy` from a `Cursor` over `src` into a
`Cursor::new(val)` where `val` is a mutable slice of length `cap`:
the reader yields all of `src`; `write_all` on the slice cursor accepts
bytes until the slice is full and then fails with `WriteZero`.  Net
effect: success with `src.length` bytes written when `src` fits, and a
`WriteZero` error otherwise. -/
def ioCopyToSlice (src : List Nat) (cap : Nat) : Except IoErrorKind Nat :=
  if src.length ≤ cap then Except.ok src.length else Except.error IoErrorKind.writeZero

/-- `std::io::copy` from a `Cursor` over `src` into a `Vec` `dst`:
the vector accepts every byte, so the copy always succeeds, returning
the number of bytes copied and the extended vector. -/
def ioCopyToVec (src : List Nat) (dst : List Nat) : Nat × List Nat :=
  (src.length, dst ++ src)

/-- Result of one `Read::read` call on `MemIo`: success carrying the
bytes delivered to the caller and the new buffer state, an `io::Error`
of some kind with the (unchanged) state, or a panic (failed
`expect`/`assert_eq!`) carrying the state at the abort. -/
inductive ReadResult where
  | ok (data : List Nat) (s : Bufs)
  | err (kind : IoErrorKind) (s : Bufs)
  | panicked (s : Bufs)
  deriving Repr, DecidableEq

/-- `<MemIo as io::Read>::read(val)` with `cap = val.len()`:
`bytes = min(val.len(), input.len())`; if `bytes > 0`, run
`io::copy(Cursor::new(&input), Cursor::new(val)).expect("copy always work")`,
`assert_eq!` the copied count against `bytes`, drain the first `bytes`
bytes of the input and return `Ok(bytes)`; otherwise return `Ok(0)` when
the input is closed and a `WouldBlock` error when it is not. -/
def MemIo.read (s : Bufs) (cap : Nat) : ReadResult :=
  let bytes := min cap s.input.length
  if bytes > 0 then
    match ioCopyToSlice s.input cap with
    | Except.error _ => ReadResult.panicked s
    | Except.ok written =>
      if written = bytes then
        ReadResult.ok (s.input.take bytes) { s with input := s.input.drop bytes }
      else
        ReadResult.panicked s
  else
    if s.input_closed then
      ReadResult.ok [] s
    else
      ReadResult.err IoErrorKind.wouldBlock s

/-- `<MemIo as io::Write>::write(val)`:
`io::copy(Cursor::new(val), &mut bufs.output).map(|x| x as usize)` —
the copy into the output `Vec` always succeeds, appending every byte. -/
def MemIo.write (s : Bufs) (val : List Nat) : (Except IoErrorKind Nat) × Bufs :=
  let r := ioCopyToVec val s.output
  (Except.ok r.1, { s with output := r.2 })

/-- `<MemIo as io::Write>::flush()`: `Ok(())`, touching nothing. -/
def MemIo.flush (s : Bufs) : (Except IoErrorKind Unit) × Bufs :=
  (Except.ok (), s)

/-- ASCII byte sequence of a string literal, for concrete scenarios. -/
def asciiBytes (str : String) : List Nat :=
  str.toList.map Char.toNat

/-- The buffer state right after `push_bytes("hello world")` followed by
`shutdown_input()` on a fresh stream. -/
def helloWorldState : Bufs :=
  { input := asciiBytes "hello world", input_closed := true, output := [] }

/-- `mio::EventSet`, an interest set of readiness conditions; mio
represents it as a bitflag word. -/
structure EventSet where
  bits : Nat
  deriving Repr, DecidableEq

/-- `mio::PollOpt`, registration modifiers (edge/level/oneshot); mio
represents it as a bitflag word. -/
structure PollOpt where
  bits : Nat
  deriving Repr, DecidableEq

/-- The `Operation` enum of `scope.rs`: one recorded scheduling
side-effect. -/
inductive Operation where
  | register (interest : EventSet) (opt : PollOpt)
  | reregister (interest : EventSet) (opt : PollOpt)
  | deregister
  | shutdown
  deriving Repr, DecidableEq

/-- The capture `Handler` of `scope.rs`: it owns the operation log, a
vector of `Operation`. -/
structure Handler where
  operations : List Operation
  deriving Repr, DecidableEq

/-- `<Handler as _LoopApi>::register`: pushes
`Operation::Register(interest, opt)` onto the log and returns `Ok(())`.
The `_io` and `_token` arguments of the Rust method are ignored by the
body and omitted here. -/
def Handler.register (h : Handler) (interest : EventSet) (opt : PollOpt) :
    (Except IoErrorKind Unit) × Handler :=
  (Except.ok (), { operations := h.operations ++ [Operation.register interest opt] })

/-- `<Handler as _LoopApi>::reregister`: pushes
`Operation::Reregister(interest, opt)` onto the log and returns
`Ok(())`. -/
def Handler.reregister (h : Handler) (interest : EventSet) (opt : PollOpt) :
    (Except IoErrorKind Unit) × Handler :=
  (Except.ok (), { operations := h.operations ++ [Operation.reregister interest opt] })

/-- `<Handler as _LoopApi>::deregister`: pushes `Operation::Deregister`
onto the log and returns `Ok(())`. -/
def Handler.deregister (h : Handler) : (Except IoErrorKind Unit) × Handler :=
  (Except.ok (), { operations := h.operations ++ [Operation.deregister] })

/-- `<Handler as _LoopApi>::shutdown`: pushes `Operation::Shutdown` onto
the log; the Rust method returns `()`. -/
def Handler.shutdown (h : Handler) : Handler :=
  { operations := h.operations ++ [Operation.shutdown] }

/-- Outcome of a `_LoopApi` timer call on the capture handler: a timer
handle on success, or a panic with the panic message. -/
inductive TimerResult where
  | ok (timeout : Nat)
  | panicked (msg : String)
  deriving Repr, DecidableEq

/-- `<Handler as _LoopApi>::timeout_ms(_token, _delay)`:
`panic!("Deprecated API")`, unconditionally. -/
def Handler.timeout_ms (_h : Handler) (_token : Nat) (_delay : Nat) : TimerResult :=
  TimerResult.panicked "Deprecated API"

/-- Outcome of `clear_timeout` on the capture handler: a boolean on
success, or a panic with the panic message. -/
inductive ClearTimeoutResult where
  | ok (cleared : Bool)
  | panicked (msg : String)
  deriving Repr, DecidableEq

/-- `<Handler as _LoopApi>::clear_timeout(_token)`:
`panic!("Deprecated API")`, unconditionally. -/
def Handler.clear_timeout (_h : Handler) (_timeout : Nat) : ClearTimeoutResult :=
  ClearTimeoutResult.panicked "Deprecated API"

/-- Outcome of a `mio::Evented` registration call on `MemIo`: `Ok(())`
on success, or a panic with the panic message. -/
inductive EventedResult where
  | ok
  | panicked (msg : String)
  deriving Repr, DecidableEq

/-- `<MemIo as mio::Evented>::register(_selector, _token, _interest,
_opts)`: `unreachable!("trying to poll on mock stream")`,
unconditionally. -/
def MemIo.evented_register (_s : Bufs) (_token : Nat) (_interest : EventSet)
    (_opts : PollOpt) : EventedResult :=
  EventedResult.panicked "trying to poll on mock stream"

/-- `<MemIo as mio::Evented>::reregister(_selector, _token, _interest,
_opts)`: `unreachable!("trying to poll on mock stream")`,
unconditionally. -/
def MemIo.evented_reregister (_s : Bufs) (_token : Nat) (_interest : EventSet)
    (_opts : PollOpt) : EventedResult :=
  EventedResult.panicked "trying to poll on mock stream"

/-- `<MemIo as mio::Evented>::deregister(_selector)`:
`unreachable!("trying to poll on mock stream")`, unconditionally. -/
def MemIo.evented_deregister (_s : Bufs) : EventedResult :=
  EventedResult.panicked "trying to poll on mock stream"

/-- The buffer state carried by a `PushResult`: the updated state on
success, the state at the moment of the abort on a panic. -/
def PushResult.state : PushResult → Bufs
  | PushResult.ok s => s
  | PushResult.panicked s => s

/-- The buffer state carried by a `ReadResult`. -/
def ReadResult.state : ReadResult → Bufs
  | ReadResult.ok _ s => s
  | ReadResult.err _ s => s
  | ReadResult.panicked s => s

/-- One call on the mock stream, as a relation from the buffer state
before the call to the buffer state after it (for a panicking call, the
state at the moment of the abort). -/
inductive Step : Bufs → Bufs → Prop where
  | push_ok {s t : Bufs} (val : List Nat)
      (h : MemIo.push_bytes s val = PushResult.ok t) : Step s t
  | push_panicked {s t : Bufs} (val : List Nat)
      (h : MemIo.push_bytes s val = PushResult.panicked t) : Step s t
  | shutdown_input (s : Bufs) : Step s (MemIo.shutdown_input s)
  | read_ok {s t : Bufs} (cap : Nat) (data : List Nat)
      (h : MemIo.read s cap = ReadResult.ok data t) : Step s t
  | read_err {s t : Bufs} (cap : Nat) (k : IoErrorKind)
      (h : MemIo.read s cap = ReadResult.err k t) : Step s t
  | read_panicked {s t : Bufs} (cap : Nat)
      (h : MemIo.read s cap = ReadResult.panicked t) : Step s t
  | write (s : Bufs) (val : List Nat) : Step s (MemIo.write s val).2
  | flush (s : Bufs) : Step s (MemIo.flush s).2
  | output_str (s : Bufs) : Step s (MemIo.output_str s).2
  | output_bytes (s : Bufs) : Step s (MemIo.output_bytes s).2

theorem push_bytes_state_closed (s : Bufs) (val : List Nat) :
    ((MemIo.push_bytes s val).state).input_closed = s.input_closed := by
  simp only [MemIo.push_bytes]
  split <;> rfl

theorem read_state_closed (s : Bufs) (cap : Nat) :
    ((MemIo.read s cap).state).input_closed = s.input_closed := by
  simp only [MemIo.read]
  split
  · split
    · rfl
    · split <;> rfl
  · split <;> rfl

theorem step_preserves_input_closed {s t : Bufs} (hst : Step s t)
    (hc : s.input_closed = true) : t.input_closed = true := by
  cases hst with
  | push_ok val h =>
    have h2 := push_bytes_state_closed s val
    rw [h] at h2
    exact h2.trans hc
  | push_panicked val h =>
    have h2 := push_bytes_state_closed s val
    rw [h] at h2
    exact h2.trans hc
  | shutdown_input => rfl
  | read_ok cap data h =>
    have h2 := read_state_closed s cap
    rw [h] at h2
    exact h2.trans hc
  | read_err cap k h =>
    have h2 := read_state_closed s cap
    rw [h] at h2
    exact h2.trans hc
  | read_panicked cap h =>
    have h2 := read_state_closed s cap
    rw [h] at h2
    exact h2.trans hc
  | write val => exact hc
  | flush => exact hc
  | output_str => exact hc
  | output_bytes => exact hc

/-- C1: the claimed behavior fails on the code.  At the failing input —
the "hello world" scenario state with a destination buffer of capacity
1 — `read` panics (the `expect("copy always work")` inside it fails,
because `io::copy` feeds the entire 11-byte input to a 1-byte cursor and
gets `WriteZero`) instead of returning 1 byte as the claim states.  The
claimed behavior does hold when the capacity covers the whole buffered
input: reading the scenario state with capacity 100 yields exactly the
11 bytes "hello world" and empties the input, and a further read
returns the end-of-stream zero-byte success. -/
theorem read_small_capacity_panics :
    MemIo.read helloWorldState 1 = ReadResult.panicked helloWorldState ∧
    MemIo.read helloWorldState 100 =
      ReadResult.ok (asciiBytes "hello world")
        (Bufs.mk [] true []) ∧
    MemIo.read (Bufs.mk [] true []) 100 = ReadResult.ok [] (Bufs.mk [] true []) := by
  refine ⟨by decide, by decide, by decide⟩

/-- C2: a read on an empty input buffer returns the zero-byte
end-of-stream success with the state unchanged when the input is closed
(hence every subsequent read repeats it identically), and returns
exactly the `WouldBlock` error with the state unchanged when the input
is not closed — never an error of any other kind and never a zero-byte
success. -/
theorem read_empty_input (s : Bufs) (cap : Nat) (h : s.input = []) :
    (s.input_closed = true → MemIo.read s cap = ReadResult.ok [] s) ∧
    (s.input_closed = false →
      MemIo.read s cap = ReadResult.err IoErrorKind.wouldBlock s) := by
  constructor <;> intro hc <;> simp [MemIo.read, h, hc]

theorem read_empty_input_witness :
    MemIo.read (Bufs.mk [] true [7]) 5 = ReadResult.ok [] (Bufs.mk [] true [7]) ∧
    MemIo.read (Bufs.mk [] false []) 0 =
      ReadResult.err IoErrorKind.wouldBlock (Bufs.mk [] false []) :=
  ⟨(read_empty_input (Bufs.mk [] true [7]) 5 rfl).1 rfl,
   (read_empty_input (Bufs.mk [] false []) 0 rfl).2 rfl⟩

/-- C3: each capture-sink call appends exactly one Operation of the
matching variant (carrying the given interest set and poll options for
register/reregister) at the tail of the log and reports success, with no
deduplication or merging; in particular register followed by deregister
on an empty log yields exactly `[Register(es, po), Deregister]` in call
order. -/
theorem capture_sink_appends (h : Handler) (es : EventSet) (po : PollOpt) :
    Handler.register h es po =
      (Except.ok (), Handler.mk (h.operations ++ [Operation.register es po])) ∧
    Handler.reregister h es po =
      (Except.ok (), Handler.mk (h.operations ++ [Operation.reregister es po])) ∧
    Handler.deregister h =
      (Except.ok (), Handler.mk (h.operations ++ [Operation.deregister])) ∧
    Handler.shutdown h = Handler.mk (h.operations ++ [Operation.shutdown]) ∧
    (Handler.deregister (Handler.register (Handler.mk []) es po).2).2.operations =
      [Operation.register es po, Operation.deregister] :=
  ⟨rfl, rfl, rfl, rfl, rfl⟩

/-- C4: `write` unconditionally appends every byte of its argument to
the tail of the output buffer and returns success with exactly the
argument's length; `flush` succeeds and changes nothing; and writing
"hello" then "world" on a fresh stream makes `output_str` return
"helloworld". -/
theorem write_appends_all (s : Bufs) (val : List Nat) :
    MemIo.write s val =
      (Except.ok val.length, { s with output := s.output ++ val }) ∧
    MemIo.flush s = (Except.ok (), s) ∧
    (MemIo.output_str
      (MemIo.write (MemIo.write MemIo.new (asciiBytes "hello")).2
        (asciiBytes "world")).2).1 = "helloworld" :=
  ⟨rfl, rfl, by decide⟩

/-- C5: calling `push_bytes` on a stream whose input is already closed
always panics (the `assert!(!bufs.input_closed)` fires), for every
payload including the empty one. -/
theorem push_after_close_panics (s : Bufs) (val : List Nat)
    (h : s.input_closed = true) :
    ∃ t, MemIo.push_bytes s val = PushResult.panicked t :=
  ⟨{ s with input := s.input ++ val }, by simp [MemIo.push_bytes, h]⟩

theorem push_after_close_panics_witness :
    ∃ t, MemIo.push_bytes (Bufs.mk [1] true []) [] = PushResult.panicked t :=
  push_after_close_panics (Bufs.mk [1] true []) [] rfl

/-- C6: `output_bytes` and `output_str` leave every component of the
buffer state untouched, `output_bytes` returns exactly the output
buffer, `output_str` returns the lossy UTF-8 decoding of those same
bytes, and repeated calls with no intervening write return identical
data. -/
theorem output_snapshots (s : Bufs) :
    (MemIo.output_bytes s).2 = s ∧
    (MemIo.output_str s).2 = s ∧
    (MemIo.output_bytes s).1 = s.output ∧
    (MemIo.output_str s).1 = String.mk (utf8LossyDecode (MemIo.output_bytes s).1) ∧
    (MemIo.output_bytes (MemIo.output_bytes s).2).1 = (MemIo.output_bytes s).1 ∧
    (MemIo.output_str (MemIo.output_str s).2).1 = (MemIo.output_str s).1 :=
  ⟨rfl, rfl, rfl, rfl, rfl, rfl⟩

/-- C7: `shutdown_input` sets `input_closed`, and every state reachable
from a post-`shutdown_input` state by any sequence of stream operations
(pushes — succeeding or aborting —, further shutdowns, reads of any
capacity and outcome, writes, flushes, output snapshots) still has
`input_closed = true`; no operation ever resets the flag. -/
theorem shutdown_input_irreversible (u t : Bufs)
    (hr : Relation.ReflTransGen Step (MemIo.shutdown_input u) t) :
    t.input_closed = true := by
  induction hr with
  | refl => rfl
  | tail _ hst ih => exact step_preserves_input_closed hst ih

theorem shutdown_input_irreversible_witness :
    (Bufs.mk [] true [5]).input_closed = true :=
  shutdown_input_irreversible MemIo.new (Bufs.mk [] true [5])
    (Relation.ReflTransGen.single
      (Step.write (MemIo.shutdown_input MemIo.new) [5]))

/-- C8: the legacy timer operations of the capture sink
(`timeout_ms`, `clear_timeout`) and every `mio::Evented` registration
call on the mock stream (`register`, `reregister`, `deregister`) panic
unconditionally, for all argument values. -/
theorem unsupported_ops_panic (h : Handler) (s : Bufs)
    (token delay timeoutHandle : Nat) (es : EventSet) (po : PollOpt) :
    Handler.timeout_ms h token delay = TimerResult.panicked "Deprecated API" ∧
    Handler.clear_timeout h timeoutHandle =
      ClearTimeoutResult.panicked "Deprecated API" ∧
    MemIo.evented_register s token es po =
      EventedResult.panicked "trying to poll on mock stream" ∧
    MemIo.evented_reregister s token es po =
      EventedResult.panicked "trying to poll on mock stream" ∧
    MemIo.evented_deregister s =
      EventedResult.panicked "trying to poll on mock stream" :=
  ⟨rfl, rfl, rfl, rfl, rfl⟩

/-- C10: when `push_bytes` is called with the input already closed, the
bytes are appended before the closed-flag assertion runs, so the buffer
state at the moment of the abort is exactly the old state with the
payload appended to the input. -/
theorem push_after_close_appends_first (s : Bufs) (val : List Nat)
    (h : s.input_closed = true) :
    MemIo.push_bytes s val =
      PushResult.panicked { s with input := s.input ++ val } := by
  simp [MemIo.push_bytes, h]

theorem push_after_close_appends_first_witness :
    MemIo.push_bytes (Bufs.mk [1, 2] true [9]) [3] =
      PushResult.panicked (Bufs.mk [1, 2, 3] true [9]) :=
  push_after_close_appends_first (Bufs.mk [1, 2] true [9]) [3] rfl
